import Mathlib

/-!
# Verification of the iconstore authentication subsystem

A shallow embedding of the authentication and session-security core of the
iconstore repository: the auth route handlers (`server/routes/auth.js`), the
token / ledger middleware (`generateAccessToken`, `generateRefreshToken`,
`verifyRefreshToken`, `storeRefreshToken`, `revokeRefreshToken`,
`revokeAllUserTokens`, `isRefreshTokenValid`, `logSecurityAudit`) and the
rate-limiter configuration (`middleware/rateLimiter.js`).

Modelling conventions:
* The relational store (`users`, `refresh_tokens`, `security_audit`) is a
  record of lists; SQL row order is insertion order and `rows[0]` is the
  first list element matching the query predicate (`List.find?`).
* Wall-clock time is an explicit `Nat` parameter in milliseconds
  (`Date.now()`); JWT expirations are kept in the same unit.
* Cryptographic primitives (HMAC-signed JWTs, SHA-256, bcrypt) are modelled
  as free constructors of the value type `SVal`: signing and hashing are
  injective and the images of distinct primitives are disjoint, reflecting
  the collision-freeness / one-wayness assumptions on them.  The two JWT
  signing secrets (`JWT_SECRET`, `JWT_REFRESH_SECRET`) are distinct
  constructors of `Secret`.
* A missing JSON body field is the empty string (JavaScript falsiness of
  `undefined`/`""` under `if (!email || ...)`); an absent `refresh_token`
  body field is `Option.none` where the code distinguishes presence.
* `validator.isEmail` is an external library; it is modelled coarsely (one
  `@` with nonempty parts and a dotted domain) — no claim hinges on email
  syntax edge cases.
-/

namespace IconStore

/-- The two JWT signing contexts: `JWT_SECRET` (access tokens) and
`JWT_REFRESH_SECRET` (refresh tokens).  The defaults in
`server/middleware/auth.js` are distinct strings, so the secrets are
distinct constructors. -/
inductive Secret where
  | access
  | refresh
deriving DecidableEq, Repr

/-- The claims payload of a signed JWT: `jwt.sign({ userId }, ...)` for
access tokens and `jwt.sign({ userId, type: 'refresh' }, ...)` for refresh
tokens, with the expiry timestamp the library derives from `expiresIn`. -/
structure JwtPayload where
  userId : Nat
  type : Option String
  exp : Nat
deriving DecidableEq, Repr

/-- The value domain for secrets and their images.  `lit` embeds client
plaintext (passwords, arbitrary strings); `jwt` is an HMAC-signed token;
`sha256` is the fast one-way digest used for the refresh-token ledger key;
`bcryptHash` is the adaptive password hash at a given cost factor.
Free constructors model injectivity / one-wayness of the primitives. -/
inductive SVal where
  | lit : String → SVal
  | jwt : JwtPayload → Secret → SVal
  | sha256 : SVal → SVal
  | bcryptHash : String → Nat → SVal
deriving DecidableEq, Repr

/-- `bcrypt.compare(password, hash)`: succeeds exactly on the bcrypt image
of the same plaintext (collision-freeness of bcrypt). -/
def bcryptCompare (password : String) (h : SVal) : Bool :=
  match h with
  | SVal.bcryptHash p _ => p == password
  | _ => false

/-- `generateAccessToken(userId)`: `jwt.sign({ userId }, JWT_SECRET,
{ expiresIn: '15m' })`.  No `type` claim. -/
def generateAccessToken (userId : Nat) (now : Nat) : SVal :=
  SVal.jwt { userId := userId, type := none, exp := now + 15 * 60 * 1000 } Secret.access

/-- `generateRefreshToken(userId)`: `jwt.sign({ userId, type: 'refresh' },
JWT_REFRESH_SECRET, { expiresIn: '7d' })`. -/
def generateRefreshToken (userId : Nat) (now : Nat) : SVal :=
  SVal.jwt { userId := userId, type := some "refresh", exp := now + 7 * 24 * 60 * 60 * 1000 }
    Secret.refresh

/-- `verifyRefreshToken(token)`: `jwt.verify(token, JWT_REFRESH_SECRET)`
(signature with the refresh secret, not expired) and then the explicit
check `decoded.type !== 'refresh'` throws.  `none` is any thrown error. -/
def verifyRefreshToken (t : SVal) (now : Nat) : Option JwtPayload :=
  match t with
  | SVal.jwt payload Secret.refresh =>
      if payload.exp ≤ now then none
      else if payload.type ≠ some "refresh" then none
      else some payload
  | _ => none

/-- A row of the `users` table (the columns the auth core touches). -/
structure UserRow where
  id : Nat
  email : String
  username : String
  password_hash : SVal
  currency_balance : Int
  is_active : Bool
  created_at : Nat
  last_login : Option Nat
deriving DecidableEq, Repr

/-- A row of the `refresh_tokens` table. -/
structure RefreshTokenRow where
  user_id : Nat
  token_hash : SVal
  expires_at : Nat
  is_revoked : Bool
  ip_address : String
  user_agent : String
deriving DecidableEq, Repr

/-- A row of the `security_audit` table. -/
structure AuditRow where
  user_id : Nat
  event_type : String
  ip_address : String
  user_agent : String
  metadata : List (String × String)
deriving DecidableEq, Repr

/-- The relational store.  `next_id` models the generated primary key for
`users` inserts. -/
structure DB where
  users : List UserRow
  refresh_tokens : List RefreshTokenRow
  audit : List AuditRow
  next_id : Nat
deriving DecidableEq, Repr

/-- The empty store (freshly migrated database). -/
def emptyDB : DB := { users := [], refresh_tokens := [], audit := [], next_id := 0 }

/-- `storeRefreshToken`: `INSERT INTO refresh_tokens (user_id, token_hash,
expires_at, ip_address, user_agent) VALUES (...)`; `is_revoked` defaults to
`FALSE` in the schema. -/
def storeRefreshToken (db : DB) (userId : Nat) (tokenHash : SVal) (expiresAt : Nat)
    (ip ua : String) : DB :=
  { db with refresh_tokens := db.refresh_tokens ++
      [{ user_id := userId, token_hash := tokenHash, expires_at := expiresAt,
         is_revoked := false, ip_address := ip, user_agent := ua }] }

/-- `revokeRefreshToken`: `UPDATE refresh_tokens SET is_revoked = TRUE WHERE
token_hash = $1`. -/
def revokeRefreshToken (db : DB) (tokenHash : SVal) : DB :=
  { db with refresh_tokens := db.refresh_tokens.map fun r =>
      if r.token_hash = tokenHash then { r with is_revoked := true } else r }

/-- `revokeAllUserTokens`: `UPDATE refresh_tokens SET is_revoked = TRUE
WHERE user_id = $1`. -/
def revokeAllUserTokens (db : DB) (userId : Nat) : DB :=
  { db with refresh_tokens := db.refresh_tokens.map fun r =>
      if r.user_id = userId then { r with is_revoked := true } else r }

/-- `isRefreshTokenValid`: `SELECT user_id FROM refresh_tokens WHERE
token_hash = $1 AND is_revoked = FALSE AND expires_at > NOW()`, returning
`rows[0]` or `null`. -/
def isRefreshTokenValid (db : DB) (tokenHash : SVal) (now : Nat) : Option Nat :=
  (db.refresh_tokens.find? fun r =>
      r.token_hash == tokenHash && !r.is_revoked && now < r.expires_at).map
    (fun r => r.user_id)

/-- `logSecurityAudit`: `INSERT INTO security_audit (...)` (best-effort in
the source; modelled as always succeeding). -/
def logSecurityAudit (db : DB) (userId : Nat) (eventType ip ua : String)
    (metadata : List (String × String)) : DB :=
  { db with audit := db.audit ++
      [{ user_id := userId, event_type := eventType, ip_address := ip,
         user_agent := ua, metadata := metadata }] }

/-- `validatePassword` from `routes/auth.js`: at least 8 characters, one
lowercase letter, one uppercase letter and one digit (the regexes test
ASCII classes). -/
def validatePassword (password : String) : Option String :=
  if password.length < 8 then
    some "Password must be at least 8 characters long"
  else if !password.toList.any Char.isLower then
    some "Password must contain at least one lowercase letter"
  else if !password.toList.any Char.isUpper then
    some "Password must contain at least one uppercase letter"
  else if !password.toList.any Char.isDigit then
    some "Password must contain at least one number"
  else none

/-- Split a character list at every occurrence of the separator. -/
def splitOnChar (sep : Char) : List Char → List (List Char)
  | [] => [[]]
  | x :: xs =>
      let rest := splitOnChar sep xs
      if x = sep then [] :: rest
      else
        match rest with
        | [] => [[x]]
        | r :: rs => (x :: r) :: rs

/-- `validator.isEmail` (external library), modelled coarsely: exactly one
`@`, nonempty local part, and a domain of at least two nonempty dotted
labels.  No claim hinges on email syntax edge cases. -/
def isEmail (s : String) : Bool :=
  match splitOnChar '@' s.data with
  | [l, domain] =>
      !l.isEmpty && decide (2 ≤ (splitOnChar '.' domain).length) &&
        (splitOnChar '.' domain).all (fun lab => !lab.isEmpty)
  | _ => false

/-- The username character test `/^[a-zA-Z0-9_]+$/`. -/
def usernameCharsOk (username : String) : Bool :=
  username ≠ "" && username.toList.all fun c => c.isAlphanum || c == '_'

/-- `String.prototype.toLowerCase()` (ASCII case folding suffices here). -/
def lowerCase (s : String) : String := ⟨s.data.map Char.toLower⟩

/-- A JSON response from an auth endpoint, flattened: `status` is the HTTP
status; the remaining fields are the optional members of the bodies the
handlers build with `res.json`.  `detail_*` are the members of the
`details` object; `user_*` the members of the `user` object; token fields
the members of the `tokens` object (register/login) or the top level
(refresh). -/
structure AuthResponse where
  status : Nat
  error : Option String := none
  message : Option String := none
  detail_email : Option String := none
  detail_username : Option String := none
  detail_password : Option String := none
  user_id : Option Nat := none
  user_email : Option String := none
  user_username : Option String := none
  user_balance : Option Int := none
  user_created_at : Option Nat := none
  access_token : Option SVal := none
  refresh_token : Option SVal := none
  expires_in : Option Nat := none
deriving DecidableEq, Repr

/-- `POST /auth/register` (`routes/auth.js`).  Validation, the
`SELECT ... WHERE email = $1 OR username = $2` existence check against the
case-folded inputs, the insert (note: the email is stored lower-cased, the
username is stored exactly as supplied), token issuance, ledger store and
audit write. -/
def registerEndpoint (db : DB) (now : Nat) (email username password ip ua : String) :
    AuthResponse × DB :=
  if email = "" || username = "" || password = "" then
    ({ status := 400, error := some "validation_error",
       message := some "Email, username, and password are required",
       detail_email := if email = "" then some "Email is required" else none,
       detail_username := if username = "" then some "Username is required" else none,
       detail_password := if password = "" then some "Password is required" else none }, db)
  else if !isEmail email then
    ({ status := 400, error := some "validation_error",
       message := some "Invalid email format",
       detail_email := some "Invalid email format" }, db)
  else if username.length < 3 || username.length > 30 then
    ({ status := 400, error := some "validation_error",
       message := some "Username must be between 3 and 30 characters",
       detail_username := some "Username must be between 3 and 30 characters" }, db)
  else if !usernameCharsOk username then
    ({ status := 400, error := some "validation_error",
       message := some "Username can only contain letters, numbers, and underscores",
       detail_username :=
         some "Username can only contain letters, numbers, and underscores" }, db)
  else
    match validatePassword password with
    | some passwordError =>
        ({ status := 400, error := some "validation_error",
           message := some passwordError, detail_password := some passwordError }, db)
    | none =>
      match db.users.find? fun u =>
          u.email == lowerCase email || u.username == lowerCase username with
      | some existing =>
          ({ status := 409, error := some "conflict",
             message := some "User already exists",
             detail_email :=
               if existing.email == lowerCase email then
                 some "Email is already registered" else none,
             detail_username :=
               if existing.username == lowerCase username then
                 some "Username is already taken" else none }, db)
      | none =>
        let passwordHash := SVal.bcryptHash password 12
        let uid := db.next_id
        let user : UserRow :=
          { id := uid, email := lowerCase email, username := username,
            password_hash := passwordHash, currency_balance := 0,
            is_active := true, created_at := now, last_login := none }
        let db1 : DB := { db with users := db.users ++ [user], next_id := db.next_id + 1 }
        let accessToken := generateAccessToken uid now
        let refreshToken := generateRefreshToken uid now
        let refreshTokenHash := SVal.sha256 refreshToken
        let expiresAt := now + 7 * 24 * 60 * 60 * 1000
        let db2 := storeRefreshToken db1 uid refreshTokenHash expiresAt ip ua
        let db3 := logSecurityAudit db2 uid "registration" ip ua
          [("email", user.email), ("username", user.username)]
        ({ status := 201,
           user_id := some uid, user_email := some user.email,
           user_username := some user.username, user_balance := some 0,
           user_created_at := some now,
           access_token := some accessToken, refresh_token := some refreshToken,
           expires_in := some 900 }, db3)

/-- `POST /auth/login` (`routes/auth.js`). -/
def loginEndpoint (db : DB) (now : Nat) (email password ip ua : String) :
    AuthResponse × DB :=
  if email = "" || password = "" then
    ({ status := 400, error := some "validation_error",
       message := some "Email and password are required" }, db)
  else
    match db.users.find? fun u => u.email == lowerCase email with
    | none =>
        ({ status := 401, error := some "invalid_credentials",
           message := some "Invalid email or password" }, db)
    | some user =>
      if !user.is_active then
        ({ status := 401, error := some "account_deactivated",
           message := some "Account has been deactivated" }, db)
      else if !bcryptCompare password user.password_hash then
        ({ status := 401, error := some "invalid_credentials",
           message := some "Invalid email or password" }, db)
      else
        let accessToken := generateAccessToken user.id now
        let refreshToken := generateRefreshToken user.id now
        let refreshTokenHash := SVal.sha256 refreshToken
        let expiresAt := now + 7 * 24 * 60 * 60 * 1000
        let db1 := storeRefreshToken db user.id refreshTokenHash expiresAt ip ua
        let db2 : DB := { db1 with users := db1.users.map fun u =>
            if u.id = user.id then { u with last_login := some now } else u }
        let db3 := logSecurityAudit db2 user.id "login" ip ua [("email", user.email)]
        ({ status := 200,
           user_id := some user.id, user_email := some user.email,
           user_username := some user.username,
           user_balance := some user.currency_balance,
           access_token := some accessToken, refresh_token := some refreshToken,
           expires_in := some 900 }, db3)

/-- `POST /auth/refresh` (`routes/auth.js`): codec verification, ledger
check, user load (revoking the presented hash defensively when the user is
missing or inactive), and issuance of a new access token only. -/
def refreshEndpoint (db : DB) (now : Nat) (refresh_token : Option SVal) :
    AuthResponse × DB :=
  match refresh_token with
  | none =>
      ({ status := 400, error := some "validation_error",
         message := some "Refresh token is required" }, db)
  | some rt =>
    match verifyRefreshToken rt now with
    | none =>
        ({ status := 401, error := some "invalid_token",
           message := some "Invalid or expired refresh token" }, db)
    | some decoded =>
      let tokenHash := SVal.sha256 rt
      match isRefreshTokenValid db tokenHash now with
      | none =>
          ({ status := 401, error := some "invalid_token",
             message := some "Refresh token is invalid or expired" }, db)
      | some _ =>
        match db.users.find? fun u => u.id == decoded.userId with
        | none =>
            ({ status := 401, error := some "invalid_user",
               message := some "User not found or deactivated" },
             revokeRefreshToken db tokenHash)
        | some user =>
          if !user.is_active then
            ({ status := 401, error := some "invalid_user",
               message := some "User not found or deactivated" },
             revokeRefreshToken db tokenHash)
          else
            ({ status := 200, access_token := some (generateAccessToken user.id now),
               expires_in := some 900 }, db)

/-- `POST /auth/logout` (`routes/auth.js`).  The route sits behind the
`authenticateToken` middleware but never reads `req.user`; only the
optional `refresh_token` body field drives the mutation. -/
def logoutEndpoint (db : DB) (refresh_token : Option SVal) : AuthResponse × DB :=
  match refresh_token with
  | none => ({ status := 200, message := some "Logged out successfully" }, db)
  | some rt =>
      ({ status := 200, message := some "Logged out successfully" },
       revokeRefreshToken db (SVal.sha256 rt))

/-- `POST /auth/logout-all` (`routes/auth.js`): revokes every ledger record
of the authenticated user (`req.user.id`). -/
def logoutAllEndpoint (db : DB) (authedUserId : Nat) : AuthResponse × DB :=
  ({ status := 200, message := some "Logged out from all devices successfully" },
   revokeAllUserTokens db authedUserId)

/-! ## Rate limiter (`middleware/rateLimiter.js`)

`express-rate-limit` with a fixed window per client IP: each request
increments the key's counter (opening a fresh window when the previous one
has elapsed); once the counter exceeds `max`, the configured `message`
object is sent with status 429.  `standardHeaders: true` attaches the
draft-standard `RateLimit-*` headers; `legacyHeaders: false` suppresses the
legacy `X-RateLimit-*` headers. -/

/-- The static JSON body configured under `message`. -/
structure RateLimitMessage where
  error : String
  message : String
  retry_after : Nat
deriving DecidableEq, Repr

/-- The options object handed to `rateLimit({...})`. -/
structure RateLimitConfig where
  windowMs : Nat
  maxHits : Nat
  message : RateLimitMessage
  standardHeaders : Bool
  legacyHeaders : Bool
deriving DecidableEq, Repr

/-- `authRateLimit`: 15-minute window, 10 requests, `RateLimit-*` headers
on, `X-RateLimit-*` headers off. -/
def authRateLimit : RateLimitConfig :=
  { windowMs := 15 * 60 * 1000, maxHits := 10,
    message := { error := "rate_limited",
                 message := "Too many authentication attempts",
                 retry_after := 900 },
    standardHeaders := true, legacyHeaders := false }

/-- `refreshRateLimit`: 15-minute window, 30 requests. -/
def refreshRateLimit : RateLimitConfig :=
  { windowMs := 15 * 60 * 1000, maxHits := 30,
    message := { error := "rate_limited",
                 message := "Too many token refresh attempts",
                 retry_after := 900 },
    standardHeaders := true, legacyHeaders := false }

/-- The limiter's per-IP state: the hit counter and the end of the current
window. -/
structure RLState where
  count : Nat
  resetAt : Nat
deriving DecidableEq, Repr

/-- The limiter's verdict on one request.  `allowed` passes the request on
to the handler; `limited` short-circuits with status 429, the configured
body, and the header families selected by the options. -/
inductive RLOutcome where
  | allowed
  | limited (status : Nat) (body : RateLimitMessage)
      (sendsRateLimitHeaders : Bool) (sendsXRateLimitHeaders : Bool)
deriving DecidableEq, Repr

/-- One request from the IP owning `st` at wall-clock `now`. -/
def rateLimitHit (cfg : RateLimitConfig) (st : RLState) (now : Nat) : RLOutcome × RLState :=
  let st := if st.resetAt ≤ now then { count := 0, resetAt := now + cfg.windowMs } else st
  let st : RLState := { st with count := st.count + 1 }
  if st.count > cfg.maxHits then
    (RLOutcome.limited 429 cfg.message cfg.standardHeaders cfg.legacyHeaders, st)
  else
    (RLOutcome.allowed, st)

/-- `n` back-to-back requests from one IP, all at wall-clock `now`,
returning the outcome of the last one. -/
def rateLimitRun (cfg : RateLimitConfig) (st : RLState) (now : Nat) :
    Nat → RLOutcome × RLState
  | 0 => (RLOutcome.allowed, st)
  | n + 1 =>
      let (_, st1) := rateLimitRun cfg st now n
      rateLimitHit cfg st1 now

/-! ## Reachable stores -/

/-- The stores reachable from the freshly migrated database through the
five auth flows, at arbitrary times and with arbitrary inputs. -/
inductive Reach : DB → Prop where
  | init : Reach emptyDB
  | register (db : DB) (now : Nat) (email username password ip ua : String) :
      Reach db → Reach (registerEndpoint db now email username password ip ua).2
  | login (db : DB) (now : Nat) (email password ip ua : String) :
      Reach db → Reach (loginEndpoint db now email password ip ua).2
  | refresh (db : DB) (now : Nat) (rt : Option SVal) :
      Reach db → Reach (refreshEndpoint db now rt).2
  | logout (db : DB) (rt : Option SVal) :
      Reach db → Reach (logoutEndpoint db rt).2
  | logoutAll (db : DB) (uid : Nat) :
      Reach db → Reach (logoutAllEndpoint db uid).2

/-! ## Concrete sample data for closed instances -/

/-- A sample refresh-token claims payload: user 1, expiry at t = 1000. -/
def samplePayload : JwtPayload := ⟨1, some "refresh", 1000⟩

/-- The matching signed refresh token. -/
def sampleToken : SVal := SVal.jwt samplePayload Secret.refresh

/-- Its ledger key. -/
def sampleHash : SVal := SVal.sha256 sampleToken

/-- A sample active user row for user 1. -/
def sampleUser : UserRow :=
  ⟨1, "a@b.com", "alice", SVal.bcryptHash "Passw0rd1" 12, 0, true, 0, none⟩

/-- The same user, deactivated. -/
def sampleInactiveUser : UserRow := { sampleUser with is_active := false }

/-- A live ledger record for `sampleToken`. -/
def sampleRow : RefreshTokenRow := ⟨1, sampleHash, 1000, false, "ip", "ua"⟩

/-- A store holding `sampleUser` and the live record for `sampleToken`. -/
def sampleDB : DB := ⟨[sampleUser], [sampleRow], [], 2⟩

/-- The same store with user 1 deactivated. -/
def sampleInactiveDB : DB := ⟨[sampleInactiveUser], [sampleRow], [], 2⟩

/-! ## Helper lemmas -/

/-- After `revoke(token_hash)`, the ledger has no valid record for that
hash. -/
theorem isRefreshTokenValid_revoke (db : DB) (h : SVal) (now : Nat) :
    isRefreshTokenValid (revokeRefreshToken db h) h now = none := by
  unfold isRefreshTokenValid revokeRefreshToken
  simp only [List.find?_map]
  rw [show (List.find? _ db.refresh_tokens) = none from List.find?_eq_none.mpr ?_]
  · simp
  · intro r _
    simp only [Function.comp]
    by_cases hr : r.token_hash = h
    · simp [hr]
    · simp [hr, beq_iff_eq]

/-- After `revoke_all(uid)`, the ledger has no valid record for any hash
whose records all belong to `uid`. -/
theorem isRefreshTokenValid_revokeAll (db : DB) (uid : Nat) (h : SVal) (now : Nat)
    (hown : ∀ r ∈ db.refresh_tokens, r.token_hash = h → r.user_id = uid) :
    isRefreshTokenValid (revokeAllUserTokens db uid) h now = none := by
  unfold isRefreshTokenValid revokeAllUserTokens
  simp only [List.find?_map]
  rw [show (List.find? _ db.refresh_tokens) = none from List.find?_eq_none.mpr ?_]
  · simp
  · intro r hr
    simp only [Function.comp]
    by_cases hh : r.token_hash = h
    · simp [hown r hr hh, hh]
    · by_cases hu : r.user_id = uid <;> simp [hu, hh, beq_iff_eq]

/-- A `verifyRefreshToken` success on an unexpired token carrying the
`refresh` type claim. -/
theorem verifyRefreshToken_ok (payload : JwtPayload)
    (now : Nat) (htype : payload.type = some "refresh") (hexp : now < payload.exp) :
    verifyRefreshToken (SVal.jwt payload Secret.refresh) now = some payload := by
  unfold verifyRefreshToken
  simp [htype, Nat.not_le.mpr hexp]

/-! ## Claims -/

/-- C1: for every refresh token `T` (a token signed with the refresh secret
and carrying the `type = "refresh"` claim) that is still inside its
cryptographic lifetime (`now < exp`, so the Token Codec still verifies it),
once the ledger records for `hash(T)` have been marked revoked — either by
`revoke(hash(T))` (Logout) or by `revoke_all(U)` (LogoutAll, under the
reachable-state fact that every ledger record for `hash(T)` belongs to
`T`'s subject) — a subsequent `Refresh(T)` fails with status 401 and error
discriminant `invalid_token`. -/
theorem C1_revocation_is_immediate (db : DB) (now : Nat) (payload : JwtPayload)
    (htype : payload.type = some "refresh") (hexp : now < payload.exp)
    (hown : ∀ r ∈ db.refresh_tokens,
      r.token_hash = SVal.sha256 (SVal.jwt payload Secret.refresh) →
      r.user_id = payload.userId) :
    verifyRefreshToken (SVal.jwt payload Secret.refresh) now = some payload ∧
    (refreshEndpoint (revokeRefreshToken db (SVal.sha256 (SVal.jwt payload Secret.refresh)))
        now (some (SVal.jwt payload Secret.refresh))).1.status = 401 ∧
    (refreshEndpoint (revokeRefreshToken db (SVal.sha256 (SVal.jwt payload Secret.refresh)))
        now (some (SVal.jwt payload Secret.refresh))).1.error = some "invalid_token" ∧
    (refreshEndpoint (revokeAllUserTokens db payload.userId)
        now (some (SVal.jwt payload Secret.refresh))).1.status = 401 ∧
    (refreshEndpoint (revokeAllUserTokens db payload.userId)
        now (some (SVal.jwt payload Secret.refresh))).1.error = some "invalid_token" := by
  have hver := verifyRefreshToken_ok payload now htype hexp
  refine ⟨hver, ?_, ?_, ?_, ?_⟩ <;>
    simp [refreshEndpoint, hver, isRefreshTokenValid_revoke,
      isRefreshTokenValid_revokeAll db payload.userId _ now hown]

/-- C1 witness: in the concrete store `sampleDB` (one ledger record for
user 1's token), after revocation the refresh fails with `invalid_token`
although the codec still verifies the token. -/
theorem C1_revocation_is_immediate_witness :
    verifyRefreshToken sampleToken 5 = some samplePayload ∧
    (refreshEndpoint (revokeRefreshToken sampleDB sampleHash) 5
        (some sampleToken)).1.status = 401 ∧
    (refreshEndpoint (revokeRefreshToken sampleDB sampleHash) 5
        (some sampleToken)).1.error = some "invalid_token" ∧
    (refreshEndpoint (revokeAllUserTokens sampleDB 1) 5
        (some sampleToken)).1.status = 401 ∧
    (refreshEndpoint (revokeAllUserTokens sampleDB 1) 5
        (some sampleToken)).1.error = some "invalid_token" :=
  C1_revocation_is_immediate sampleDB 5 samplePayload rfl (by decide) (by decide)

/-- C3: a validly-signed access token (issued by `generateAccessToken`, so
signed with the access secret and carrying no `type = "refresh"` claim)
presented as the `refresh_token` body field of `Refresh` is rejected with
status 401 and error `invalid_token`, with no change to the store; it is
never treated as a refresh token. -/
theorem C3_access_token_never_refreshes (db : DB) (now issuedAt uid : Nat)
    (_hexp : now < issuedAt + 15 * 60 * 1000) :
    (refreshEndpoint db now (some (generateAccessToken uid issuedAt))).1.status = 401 ∧
    (refreshEndpoint db now (some (generateAccessToken uid issuedAt))).1.error =
      some "invalid_token" ∧
    (refreshEndpoint db now (some (generateAccessToken uid issuedAt))).2 = db := by
  simp [refreshEndpoint, generateAccessToken, verifyRefreshToken]

/-- C3 witness: a freshly issued access token for user 1 presented to
`Refresh` against the concrete store `sampleDB`. -/
theorem C3_access_token_never_refreshes_witness :
    (refreshEndpoint sampleDB 5 (some (generateAccessToken 1 0))).1.status = 401 ∧
    (refreshEndpoint sampleDB 5 (some (generateAccessToken 1 0))).1.error =
      some "invalid_token" ∧
    (refreshEndpoint sampleDB 5 (some (generateAccessToken 1 0))).2 = sampleDB :=
  C3_access_token_never_refreshes sampleDB 5 0 1 (by decide)

/-- C6: a successful `Refresh` (status 200) performs no write at all to the
store — in particular the ledger record for the presented token's hash is
neither rotated, replaced, revoked nor re-dated — and its response carries
a fresh access token with TTL 900 and no new refresh token. -/
theorem C6_refresh_is_read_only_on_success (db : DB) (now : Nat) (rt : SVal)
    (hok : (refreshEndpoint db now (some rt)).1.status = 200) :
    (refreshEndpoint db now (some rt)).2 = db ∧
    (refreshEndpoint db now (some rt)).1.access_token.isSome = true ∧
    (refreshEndpoint db now (some rt)).1.refresh_token = none ∧
    (refreshEndpoint db now (some rt)).1.expires_in = some 900 ∧
    (refreshEndpoint (refreshEndpoint db now (some rt)).2 now (some rt)).1.status = 200 := by
  unfold refreshEndpoint at hok ⊢
  rcases hver : verifyRefreshToken rt now with _ | decoded <;> simp only [hver] at hok ⊢
  · simp at hok
  · rcases hval : isRefreshTokenValid db (SVal.sha256 rt) now with _ | v <;>
      simp only [hval] at hok ⊢
    · simp at hok
    · rcases hfind : db.users.find? fun u => u.id == decoded.userId with _ | user <;>
        simp only [hfind] at hok ⊢
      · simp at hok
      · rcases hact : user.is_active <;> simp [hact, hver, hval, hfind] at hok ⊢

/-- C6 witness: in `sampleDB` the refresh of user 1's live token succeeds,
and the store is returned unchanged. -/
theorem C6_refresh_is_read_only_on_success_witness :
    (refreshEndpoint sampleDB 5 (some sampleToken)).2 = sampleDB ∧
    (refreshEndpoint sampleDB 5 (some sampleToken)).1.access_token.isSome = true ∧
    (refreshEndpoint sampleDB 5 (some sampleToken)).1.refresh_token = none ∧
    (refreshEndpoint sampleDB 5 (some sampleToken)).1.expires_in = some 900 ∧
    (refreshEndpoint (refreshEndpoint sampleDB 5 (some sampleToken)).2 5
      (some sampleToken)).1.status = 200 :=
  C6_refresh_is_read_only_on_success sampleDB 5 sampleToken (by decide)

/-- C7: when `Refresh` is presented a token that passes both the codec
check and the ledger `is_valid` check, but the subject user is missing from
the store or deactivated, the handler revokes that token's ledger records
and fails with status 401 and error `invalid_user`. -/
theorem C7_dangling_subject_revokes_and_fails (db : DB) (now : Nat) (payload : JwtPayload)
    (htype : payload.type = some "refresh") (hexp : now < payload.exp)
    (hvalid : isRefreshTokenValid db (SVal.sha256 (SVal.jwt payload Secret.refresh)) now ≠ none)
    (huser : ∀ u, db.users.find? (fun u => u.id == payload.userId) = some u →
      u.is_active = false) :
    refreshEndpoint db now (some (SVal.jwt payload Secret.refresh)) =
      ({ status := 401, error := some "invalid_user",
         message := some "User not found or deactivated" },
       revokeRefreshToken db (SVal.sha256 (SVal.jwt payload Secret.refresh))) := by
  have hver := verifyRefreshToken_ok payload now htype hexp
  obtain ⟨v, hv⟩ := Option.ne_none_iff_exists'.mp hvalid
  unfold refreshEndpoint
  rcases hfind : db.users.find? fun u => u.id == payload.userId with _ | user
  · simp [hver, hv, hfind]
  · simp [hver, hv, hfind, huser user hfind]

/-- C7 witness: `sampleInactiveDB` holds a live ledger record for user 1's
token but the user is deactivated; the refresh revokes the record and
fails with `invalid_user`. -/
theorem C7_dangling_subject_revokes_and_fails_witness :
    refreshEndpoint sampleInactiveDB 5 (some sampleToken) =
      ({ status := 401, error := some "invalid_user",
         message := some "User not found or deactivated" },
       revokeRefreshToken sampleInactiveDB sampleHash) :=
  C7_dangling_subject_revokes_and_fails sampleInactiveDB 5 samplePayload rfl (by decide)
    (by decide) (by decide)

/-- C4: the `Login` error responses for an email belonging to no user and
for an existing active user's email with a wrong password are identical
records — status 401 with error discriminant `invalid_credentials` and the
same message — and neither call writes to the store (nothing reveals
whether the email exists). -/
theorem C4_login_enumeration_resistance (db : DB) (now : Nat)
    (email1 pw1 ip1 ua1 email2 pw2 ip2 ua2 : String) (u : UserRow)
    (h1 : email1 ≠ "") (h2 : pw1 ≠ "")
    (h3 : email2 ≠ "") (h4 : pw2 ≠ "")
    (hnone : db.users.find? (fun x => x.email == lowerCase email1) = none)
    (hsome : db.users.find? (fun x => x.email == lowerCase email2) = some u)
    (hactive : u.is_active = true)
    (hpw : bcryptCompare pw2 u.password_hash = false) :
    (loginEndpoint db now email1 pw1 ip1 ua1).1 = (loginEndpoint db now email2 pw2 ip2 ua2).1 ∧
    (loginEndpoint db now email1 pw1 ip1 ua1).1.status = 401 ∧
    (loginEndpoint db now email1 pw1 ip1 ua1).1.error = some "invalid_credentials" ∧
    (loginEndpoint db now email1 pw1 ip1 ua1).2 = db ∧
    (loginEndpoint db now email2 pw2 ip2 ua2).2 = db := by
  simp [loginEndpoint, h1, h2, h3, h4, hnone, hsome, hactive, hpw]

/-- C4 witness: against `sampleDB`, `Login("no@x.com", "Whatever1")`
(unknown email) and `Login("a@b.com", "WrongPass1")` (real active user,
wrong password) produce identical 401 `invalid_credentials` responses. -/
theorem C4_login_enumeration_resistance_witness :
    (loginEndpoint sampleDB 5 "no@x.com" "Whatever1" "ip1" "ua1").1 =
      (loginEndpoint sampleDB 5 "a@b.com" "WrongPass1" "ip2" "ua2").1 ∧
    (loginEndpoint sampleDB 5 "no@x.com" "Whatever1" "ip1" "ua1").1.status = 401 ∧
    (loginEndpoint sampleDB 5 "no@x.com" "Whatever1" "ip1" "ua1").1.error =
      some "invalid_credentials" ∧
    (loginEndpoint sampleDB 5 "no@x.com" "Whatever1" "ip1" "ua1").2 = sampleDB ∧
    (loginEndpoint sampleDB 5 "a@b.com" "WrongPass1" "ip2" "ua2").2 = sampleDB :=
  C4_login_enumeration_resistance sampleDB 5 "no@x.com" "Whatever1" "ip1" "ua1"
    "a@b.com" "WrongPass1" "ip2" "ua2" sampleUser (by decide) (by decide) (by decide)
    (by decide) (by decide) (by decide) (by decide) (by decide)

/-- C2 counterexample: usernames are stored exactly as supplied while the
conflict check compares stored values against the case-folded request, so
registering `"alice"` while the stored username is `"Alice"` — the same
name up to letter case — is NOT rejected: the second registration returns
201 and inserts a second user row. -/
theorem C2_counterexample_username_case :
    ("alice" : String) ≠ "Alice" ∧ lowerCase "alice" = lowerCase "Alice" ∧
    ((registerEndpoint emptyDB 0 "a@b.com" "Alice" "Passw0rd1" "ip" "ua").2.users.map
      (fun u => u.username) = ["Alice"]) ∧
    (registerEndpoint (registerEndpoint emptyDB 0 "a@b.com" "Alice" "Passw0rd1" "ip" "ua").2
      5 "c@d.com" "alice" "Passw0rd1" "ip" "ua").1.status = 201 ∧
    ¬ (registerEndpoint (registerEndpoint emptyDB 0 "a@b.com" "Alice" "Passw0rd1" "ip" "ua").2
      5 "c@d.com" "alice" "Passw0rd1" "ip" "ua").1.status = 409 ∧
    (registerEndpoint (registerEndpoint emptyDB 0 "a@b.com" "Alice" "Passw0rd1" "ip" "ua").2
      5 "c@d.com" "alice" "Passw0rd1" "ip" "ua").2.users.length = 2 := by
  decide

/-- C2 (amended): for every validated `Register` request, if the first user
row matching the existence query has stored email equal to the case-folded
requested email or stored username equal to the case-folded requested
username, registration fails with HTTP 409 / `conflict`, no row is
inserted, and the details report per field whether the stored value equals
the case-folded request.  (Emails are stored lower-cased, so email
uniqueness is effectively case-insensitive; usernames are stored as
supplied, so a stored mixed-case username does not block a request
differing only in case.) -/
theorem C2_conflict_on_casefolded_match (db : DB) (now : Nat)
    (email username password ip ua : String) (u : UserRow)
    (hemail : email ≠ "") (husername : username ≠ "") (hpassword : password ≠ "")
    (hfmt : isEmail email = true)
    (hlen : 3 ≤ username.length) (hlen2 : username.length ≤ 30)
    (hchars : usernameCharsOk username = true)
    (hpw : validatePassword password = none)
    (hfind : db.users.find?
      (fun x => x.email == lowerCase email || x.username == lowerCase username) = some u) :
    (registerEndpoint db now email username password ip ua).1.status = 409 ∧
    (registerEndpoint db now email username password ip ua).1.error = some "conflict" ∧
    (registerEndpoint db now email username password ip ua).2 = db ∧
    (registerEndpoint db now email username password ip ua).1.detail_email =
      (if u.email == lowerCase email then some "Email is already registered" else none) ∧
    (registerEndpoint db now email username password ip ua).1.detail_username =
      (if u.username == lowerCase username then some "Username is already taken" else none) := by
  simp [registerEndpoint, hemail, husername, hpassword, hfmt, hchars, hpw, hfind,
    Nat.not_lt.mpr hlen, Nat.not_lt.mpr hlen2]

/-- C2 witness: against `sampleDB` (stored email `a@b.com`), registering
`A@B.com` — the same address up to letter case — is rejected with 409
`conflict`, reporting the email field, and inserts nothing. -/
theorem C2_conflict_on_casefolded_match_witness :
    (registerEndpoint sampleDB 7 "A@B.com" "zed99" "Passw0rd1" "ip" "ua").1.status = 409 ∧
    (registerEndpoint sampleDB 7 "A@B.com" "zed99" "Passw0rd1" "ip" "ua").1.error =
      some "conflict" ∧
    (registerEndpoint sampleDB 7 "A@B.com" "zed99" "Passw0rd1" "ip" "ua").2 = sampleDB ∧
    (registerEndpoint sampleDB 7 "A@B.com" "zed99" "Passw0rd1" "ip" "ua").1.detail_email =
      some "Email is already registered" ∧
    (registerEndpoint sampleDB 7 "A@B.com" "zed99" "Passw0rd1" "ip" "ua").1.detail_username =
      none :=
  C2_conflict_on_casefolded_match sampleDB 7 "A@B.com" "zed99" "Passw0rd1" "ip" "ua"
    sampleUser (by decide) (by decide) (by decide) (by decide) (by decide) (by decide)
    (by decide) (by decide) (by decide)

/-- Revoking the same hash twice is the same as revoking it once. -/
theorem revokeRefreshToken_idem (db : DB) (h : SVal) :
    revokeRefreshToken (revokeRefreshToken db h) h = revokeRefreshToken db h := by
  unfold revokeRefreshToken
  simp only [List.map_map]
  congr 1
  refine List.map_congr_left fun r _ => ?_
  by_cases hr : r.token_hash = h <;> simp [Function.comp, hr]

/-- After `revoke(h)`, every ledger record for `h` is revoked. -/
theorem revokeRefreshToken_marks_revoked (db : DB) (h : SVal) :
    ∀ r ∈ (revokeRefreshToken db h).refresh_tokens,
      r.token_hash = h → r.is_revoked = true := by
  unfold revokeRefreshToken
  intro r hr
  simp only [List.mem_map] at hr
  obtain ⟨r0, _, rfl⟩ := hr
  intro hh
  by_cases h0 : r0.token_hash = h
  · simp [h0]
  · rw [if_neg h0] at hh
    exact absurd hh h0

/-- Revoking a hash with no matching record changes nothing (the `UPDATE`
matches zero rows). -/
theorem revokeRefreshToken_absent_noop (db : DB) (h : SVal)
    (habs : ∀ r ∈ db.refresh_tokens, r.token_hash ≠ h) :
    revokeRefreshToken db h = db := by
  unfold revokeRefreshToken
  have hmap : db.refresh_tokens.map
      (fun r => if r.token_hash = h then { r with is_revoked := true } else r) =
      db.refresh_tokens := by
    conv_rhs => rw [← List.map_id db.refresh_tokens]
    exact List.map_congr_left fun r hr => by simp [habs r hr]
  rw [hmap]

/-- C8: `revoke(token_hash)` is idempotent and total.  Both of two
consecutive `Logout` calls with the same refresh token return status 200;
after the first every ledger record for the token's hash is revoked; the
second call leaves the store exactly as the first left it (the records stay
revoked, never un-revoked); and revoking a hash with no matching record is
a no-op rather than an error. -/
theorem C8_logout_idempotent (db : DB) (rt : SVal) :
    (logoutEndpoint db (some rt)).1.status = 200 ∧
    (logoutEndpoint (logoutEndpoint db (some rt)).2 (some rt)).1.status = 200 ∧
    (∀ r ∈ (logoutEndpoint db (some rt)).2.refresh_tokens,
      r.token_hash = SVal.sha256 rt → r.is_revoked = true) ∧
    (logoutEndpoint (logoutEndpoint db (some rt)).2 (some rt)).2 =
      (logoutEndpoint db (some rt)).2 ∧
    ((∀ r ∈ db.refresh_tokens, r.token_hash ≠ SVal.sha256 rt) →
      revokeRefreshToken db (SVal.sha256 rt) = db) := by
  refine ⟨rfl, rfl, ?_, ?_, ?_⟩
  · exact revokeRefreshToken_marks_revoked db (SVal.sha256 rt)
  · exact revokeRefreshToken_idem db (SVal.sha256 rt)
  · exact revokeRefreshToken_absent_noop db (SVal.sha256 rt)

/-- C10: `LogoutAll` revokes exactly the authenticated user's ledger
records: user rows, audit rows and every other user's ledger records are
byte-for-byte unchanged (positionally), while each record of the user is
the same row with only `is_revoked` set. -/
theorem C10_revoke_all_frames_other_users (db : DB) (uid : Nat) :
    logoutAllEndpoint db uid =
      ({ status := 200, message := some "Logged out from all devices successfully" },
       revokeAllUserTokens db uid) ∧
    (revokeAllUserTokens db uid).users = db.users ∧
    (revokeAllUserTokens db uid).audit = db.audit ∧
    (revokeAllUserTokens db uid).next_id = db.next_id ∧
    (revokeAllUserTokens db uid).refresh_tokens.length = db.refresh_tokens.length ∧
    ∀ (i : Nat) (r : RefreshTokenRow), db.refresh_tokens[i]? = some r →
      (r.user_id ≠ uid → (revokeAllUserTokens db uid).refresh_tokens[i]? = some r) ∧
      (r.user_id = uid → (revokeAllUserTokens db uid).refresh_tokens[i]? =
        some { r with is_revoked := true }) := by
  refine ⟨rfl, rfl, rfl, rfl, by simp [revokeAllUserTokens], ?_⟩
  intro i r hi
  constructor
  · intro hne
    simp [revokeAllUserTokens, List.getElem?_map, hi, hne]
  · intro heq
    simp [revokeAllUserTokens, List.getElem?_map, hi, heq]

/-- C9 counterexample: ten requests at t = 0 fill the auth bucket; the 11th
request (at t = 60000 ms, inside the window) is limited with status 429,
the `rate_limited` body and the standard `RateLimit-*` headers — but the
legacy `X-RateLimit-*` headers are NOT sent (`legacyHeaders: false`), and
the static `retry_after` field (900) differs from the 840 seconds actually
remaining until the window resets. -/
theorem C9_counterexample_headers_and_retry_after :
    (rateLimitHit authRateLimit (rateLimitRun authRateLimit ⟨0, 0⟩ 0 10).2 60000).1 =
      RLOutcome.limited 429 ⟨"rate_limited", "Too many authentication attempts", 900⟩
        true false ∧
    ((rateLimitRun authRateLimit ⟨0, 0⟩ 0 10).2.resetAt - 60000) / 1000 = 840 ∧
    authRateLimit.message.retry_after = 900 ∧ ¬ (900 : Nat) = 840 := by
  decide

/-- C9 (amended): the 11th request from one IP inside a 15-minute window of
the login/registration bucket — any request arriving while the window is
open with the counter already at the bucket's maximum of 10 — is answered
with status 429, error discriminant `rate_limited`, a `retry_after` field
carrying the configured full-window hint of 900 seconds, and the standard
`RateLimit-*` headers; the legacy `X-RateLimit-*` headers are disabled. -/
theorem C9_rate_limited_response (st : RLState) (now : Nat)
    (hwin : now < st.resetAt) (hcount : authRateLimit.maxHits ≤ st.count) :
    (rateLimitHit authRateLimit st now).1 =
      RLOutcome.limited 429 ⟨"rate_limited", "Too many authentication attempts", 900⟩
        true false ∧
    (rateLimitHit authRateLimit st now).2 = ⟨st.count + 1, st.resetAt⟩ ∧
    (rateLimitRun authRateLimit ⟨0, 0⟩ 0 11).1 =
      RLOutcome.limited 429 ⟨"rate_limited", "Too many authentication attempts", 900⟩
        true false := by
  have hwin' : ¬ st.resetAt ≤ now := Nat.not_le.mpr hwin
  have hc : 10 < st.count + 1 := by
    have h10 : 10 ≤ st.count := hcount
    omega
  refine ⟨?_, ?_, by decide⟩ <;>
    simp [rateLimitHit, hwin', hc, authRateLimit]

/-- C9 witness: the counter stands at 10 and the window runs to t = 900000;
the request at t = 60000 is the 11th and is limited with the amended
response shape. -/
theorem C9_rate_limited_response_witness :
    (rateLimitHit authRateLimit ⟨10, 900000⟩ 60000).1 =
      RLOutcome.limited 429 ⟨"rate_limited", "Too many authentication attempts", 900⟩
        true false ∧
    (rateLimitHit authRateLimit ⟨10, 900000⟩ 60000).2 = ⟨11, 900000⟩ ∧
    (rateLimitRun authRateLimit ⟨0, 0⟩ 0 11).1 =
      RLOutcome.limited 429 ⟨"rate_limited", "Too many authentication attempts", 900⟩
        true false :=
  C9_rate_limited_response ⟨10, 900000⟩ 60000 (by decide) (by decide)

/-! ## The stored-secrets invariant (C5) -/

/-- Every ledger record stores a SHA-256 image and every user row stores a
bcrypt image at cost 12. -/
def StoredSecretsHashed (db : DB) : Prop :=
  (∀ r ∈ db.refresh_tokens, ∃ t, r.token_hash = SVal.sha256 t) ∧
  (∀ u ∈ db.users, ∃ p, u.password_hash = SVal.bcryptHash p 12)

/-- `revoke` only flips `is_revoked`; hashes are untouched. -/
theorem storedSecretsHashed_revoke (db : DB) (h : SVal)
    (hdb : StoredSecretsHashed db) :
    StoredSecretsHashed (revokeRefreshToken db h) := by
  refine ⟨?_, hdb.2⟩
  intro r hr
  simp only [revokeRefreshToken, List.mem_map] at hr
  obtain ⟨r0, hr0, rfl⟩ := hr
  obtain ⟨t, ht⟩ := hdb.1 r0 hr0
  refine ⟨t, ?_⟩
  by_cases h0 : r0.token_hash = h
  · rw [if_pos h0]
    exact ht
  · rw [if_neg h0]
    exact ht

/-- `revoke_all` only flips `is_revoked`; hashes are untouched. -/
theorem storedSecretsHashed_revokeAll (db : DB) (uid : Nat)
    (hdb : StoredSecretsHashed db) :
    StoredSecretsHashed (revokeAllUserTokens db uid) := by
  refine ⟨?_, hdb.2⟩
  intro r hr
  simp only [revokeAllUserTokens, List.mem_map] at hr
  obtain ⟨r0, hr0, rfl⟩ := hr
  obtain ⟨t, ht⟩ := hdb.1 r0 hr0
  refine ⟨t, ?_⟩
  by_cases h0 : r0.user_id = uid
  · rw [if_pos h0]
    exact ht
  · rw [if_neg h0]
    exact ht

/-- `Register` preserves the invariant: the inserted ledger record stores
`sha256(refresh token)` and the inserted user row stores the bcrypt hash of
the supplied password. -/
theorem storedSecretsHashed_register (db : DB) (now : Nat)
    (email username password ip ua : String) (hdb : StoredSecretsHashed db) :
    StoredSecretsHashed (registerEndpoint db now email username password ip ua).2 := by
  unfold registerEndpoint
  repeat' split
  any_goals exact hdb
  constructor
  · intro r hr
    simp only [logSecurityAudit, storeRefreshToken, List.mem_append,
      List.mem_singleton] at hr
    rcases hr with hr | rfl
    · exact hdb.1 r hr
    · exact ⟨generateRefreshToken db.next_id now, rfl⟩
  · intro u hu
    simp only [logSecurityAudit, storeRefreshToken, List.mem_append,
      List.mem_singleton] at hu
    rcases hu with hu | rfl
    · exact hdb.2 u hu
    · exact ⟨password, rfl⟩

/-- `Login` preserves the invariant: the stored ledger record is
`sha256(refresh token)` and the `last_login` update leaves `password_hash`
alone. -/
theorem storedSecretsHashed_login (db : DB) (now : Nat)
    (email password ip ua : String) (hdb : StoredSecretsHashed db) :
    StoredSecretsHashed (loginEndpoint db now email password ip ua).2 := by
  unfold loginEndpoint
  repeat' split
  any_goals exact hdb
  rename_i user hfind _ _
  constructor
  · intro r hr
    simp only [logSecurityAudit, storeRefreshToken, List.mem_append,
      List.mem_singleton] at hr
    rcases hr with hr | rfl
    · exact hdb.1 r hr
    · exact ⟨generateRefreshToken user.id now, rfl⟩
  · intro u hu
    simp only [logSecurityAudit, storeRefreshToken, List.mem_map] at hu
    obtain ⟨u0, hu0, rfl⟩ := hu
    obtain ⟨p, hp⟩ := hdb.2 u0 hu0
    by_cases h0 : u0.id = user.id <;> simp [h0] <;> exact ⟨p, hp⟩

/-- `Refresh` preserves the invariant (it either leaves the store alone or
revokes). -/
theorem storedSecretsHashed_refresh (db : DB) (now : Nat) (rt : Option SVal)
    (hdb : StoredSecretsHashed db) :
    StoredSecretsHashed (refreshEndpoint db now rt).2 := by
  unfold refreshEndpoint
  rcases rt with _ | t
  · exact hdb
  · rcases hv : verifyRefreshToken t now with _ | d <;> simp only [hv]
    · exact hdb
    · rcases hval : isRefreshTokenValid db (SVal.sha256 t) now with _ | v <;>
        simp only [hval]
      · exact hdb
      · rcases hfind : db.users.find? fun u => u.id == d.userId with _ | user <;>
          simp only [hfind]
        · exact storedSecretsHashed_revoke db _ hdb
        · by_cases hact : user.is_active <;> simp only [hact, Bool.not_true,
            Bool.not_false, if_true, if_false, Bool.false_eq_true]
          · exact hdb
          · exact storedSecretsHashed_revoke db _ hdb

/-- `Logout` preserves the invariant. -/
theorem storedSecretsHashed_logout (db : DB) (rt : Option SVal)
    (hdb : StoredSecretsHashed db) :
    StoredSecretsHashed (logoutEndpoint db rt).2 := by
  unfold logoutEndpoint
  split
  · exact hdb
  · exact storedSecretsHashed_revoke db _ hdb

/-- `LogoutAll` preserves the invariant. -/
theorem storedSecretsHashed_logoutAll (db : DB) (uid : Nat)
    (hdb : StoredSecretsHashed db) :
    StoredSecretsHashed (logoutAllEndpoint db uid).2 :=
  storedSecretsHashed_revokeAll db uid hdb

/-- Every reachable store satisfies the invariant. -/
theorem reach_storedSecretsHashed (db : DB) (h : Reach db) : StoredSecretsHashed db := by
  induction h with
  | init => exact ⟨by simp [emptyDB], by simp [emptyDB]⟩
  | register db now email username password ip ua _ ih =>
      exact storedSecretsHashed_register db now email username password ip ua ih
  | login db now email password ip ua _ ih =>
      exact storedSecretsHashed_login db now email password ip ua ih
  | refresh db now rt _ ih => exact storedSecretsHashed_refresh db now rt ih
  | logout db rt _ ih => exact storedSecretsHashed_logout db rt ih
  | logoutAll db uid _ ih => exact storedSecretsHashed_logoutAll db uid ih

/-- A SHA-256 image is never its own preimage (no `SVal` term contains
itself). -/
theorem sha256_ne (t : SVal) : SVal.sha256 t ≠ t := by
  induction t with
  | lit s => simp
  | jwt p sec => simp
  | sha256 t ih =>
      intro h
      injection h with h'
      exact ih h'
  | bcryptHash p c => simp

/-- C5: in every state reachable through Register, Login, Refresh, Logout
and LogoutAll, every stored `token_hash` is the SHA-256 image of a raw
token — so it equals no signed token (no raw refresh token ever issued is
a SHA-256 digest) and in particular not its own preimage — and every
stored `password_hash` is the bcrypt image of the password supplied at
registration, never that plaintext itself. -/
theorem C5_no_plaintext_secrets_at_rest (db : DB) (hreach : Reach db) :
    (∀ r ∈ db.refresh_tokens,
      (∀ (payload : JwtPayload) (s : Secret), r.token_hash ≠ SVal.jwt payload s) ∧
      ∃ t, r.token_hash = SVal.sha256 t ∧ r.token_hash ≠ t) ∧
    (∀ u ∈ db.users,
      ∃ p : String, u.password_hash = SVal.bcryptHash p 12 ∧
        u.password_hash ≠ SVal.lit p) := by
  obtain ⟨htok, huser⟩ := reach_storedSecretsHashed db hreach
  constructor
  · intro r hr
    obtain ⟨t, ht⟩ := htok r hr
    refine ⟨?_, t, ht, ?_⟩
    · intro payload s
      rw [ht]
      exact fun h => SVal.noConfusion h
    · rw [ht]
      exact sha256_ne t
  · intro u hu
    obtain ⟨p, hp⟩ := huser u hu
    refine ⟨p, hp, ?_⟩
    rw [hp]
    exact fun h => SVal.noConfusion h

/-- C5 witness: the store reached by one concrete registration holds only
hashed secrets. -/
theorem C5_no_plaintext_secrets_at_rest_witness :
    (∀ r ∈ (registerEndpoint emptyDB 0 "a@b.com" "alice" "Passw0rd1" "ip"
        "ua").2.refresh_tokens,
      (∀ (payload : JwtPayload) (s : Secret), r.token_hash ≠ SVal.jwt payload s) ∧
      ∃ t, r.token_hash = SVal.sha256 t ∧ r.token_hash ≠ t) ∧
    (∀ u ∈ (registerEndpoint emptyDB 0 "a@b.com" "alice" "Passw0rd1" "ip" "ua").2.users,
      ∃ p : String, u.password_hash = SVal.bcryptHash p 12 ∧
        u.password_hash ≠ SVal.lit p) :=
  C5_no_plaintext_secrets_at_rest
    (registerEndpoint emptyDB 0 "a@b.com" "alice" "Passw0rd1" "ip" "ua").2
    (Reach.register emptyDB 0 "a@b.com" "alice" "Passw0rd1" "ip" "ua" Reach.init)

end IconStore
